import Mathlib

/-!
Verification of the wait-interval timeout computation of
jssc (java-simple-serial-connector), file `src/cpp/jssc_Common.h`.

The function `getNextTimeout(JNIEnv *env, struct timeval *time,
long timeoutDeadline, long pollPeriodMillis)` fills a `timeval` with the
next select() timeout, or reports "block forever" by returning 1.

Embedding conventions:
* C `long` (LP64, 64-bit signed) is modelled as `Int`; all divisions and
  remainders in the source act on operands the guards have already made
  positive, and C truncated division is rendered faithfully with
  `Int.tdiv` / `Int.tmod`.
* The `struct timeval *time` out-parameter is modelled by a `Bool` flag
  `timeIsNull` (whether the pointer is NULL) plus an explicit pre-state
  `tv : Timeval`; the function returns the pair (return code, post-state
  of the pointee).  A path that never writes through the pointer returns
  the pre-state unchanged.
* The single clock sample `getTimePreciseMicros(env)` taken at line 85 of
  the source is modelled by the explicit argument `currentTime`: it stands
  for the value that JNI call would have returned during this invocation.
-/

namespace Jssc

/-- Model of C `struct timeval`: seconds and microseconds fields. -/
structure Timeval where
  tv_sec : Int
  tv_usec : Int
deriving DecidableEq, Repr

/-- Shallow embedding of `getNextTimeout` from `src/cpp/jssc_Common.h`
(lines 73-119).  `timeIsNull` models `time == NULL`; `tv` is the pre-state
of `*time`; `currentTime` models the value returned by the internal
`getTimePreciseMicros(env)` call.  Result: (C return value, post-state of
`*time`). -/
def getNextTimeout (timeIsNull : Bool) (tv : Timeval)
    (currentTime timeoutDeadline pollPeriodMillis : Int) : Int × Timeval :=
  if timeIsNull then
    (1, tv)
  else if timeoutDeadline = 0 then
    (0, ⟨0, 0⟩)
  else if 0 < timeoutDeadline then
    let timeUntilTimeout := timeoutDeadline - currentTime
    if timeUntilTimeout ≤ 0 then
      (0, ⟨0, 0⟩)
    else if 0 < pollPeriodMillis then
      let pollPeriodMicros := pollPeriodMillis * 1000
      if pollPeriodMicros < timeUntilTimeout then
        (0, ⟨pollPeriodMillis.tdiv 1000, pollPeriodMillis.tmod 1000 * 1000⟩)
      else
        (0, ⟨timeUntilTimeout.tdiv 1000000, timeUntilTimeout.tmod 1000000⟩)
    else
      (0, ⟨timeUntilTimeout.tdiv 1000000, timeUntilTimeout.tmod 1000000⟩)
  else if timeoutDeadline < 0 then
    if 0 < pollPeriodMillis then
      (0, ⟨pollPeriodMillis.tdiv 1000, pollPeriodMillis.tmod 1000 * 1000⟩)
    else
      (1, tv)
  else
    (1, tv)

/-- Instrumented transcription of `getNextTimeout`, identical to the source
branch for branch, except that the trailing `return 1` on line 118 (the
fallback after the `timeoutDeadline < 0` case) is marked by `none` instead
of producing a value.  Proving it always equals `some` of `getNextTimeout`
shows that trailing return is unreachable. -/
def getNextTimeoutInstr (timeIsNull : Bool) (tv : Timeval)
    (currentTime timeoutDeadline pollPeriodMillis : Int) : Option (Int × Timeval) :=
  if timeIsNull then
    some (1, tv)
  else if timeoutDeadline = 0 then
    some (0, ⟨0, 0⟩)
  else if 0 < timeoutDeadline then
    let timeUntilTimeout := timeoutDeadline - currentTime
    if timeUntilTimeout ≤ 0 then
      some (0, ⟨0, 0⟩)
    else if 0 < pollPeriodMillis then
      let pollPeriodMicros := pollPeriodMillis * 1000
      if pollPeriodMicros < timeUntilTimeout then
        some (0, ⟨pollPeriodMillis.tdiv 1000, pollPeriodMillis.tmod 1000 * 1000⟩)
      else
        some (0, ⟨timeUntilTimeout.tdiv 1000000, timeUntilTimeout.tmod 1000000⟩)
    else
      some (0, ⟨timeUntilTimeout.tdiv 1000000, timeUntilTimeout.tmod 1000000⟩)
  else if timeoutDeadline < 0 then
    if 0 < pollPeriodMillis then
      some (0, ⟨pollPeriodMillis.tdiv 1000, pollPeriodMillis.tmod 1000 * 1000⟩)
    else
      some (1, tv)
  else
    none

/-- Total length of a `Timeval` in microseconds. -/
def totalMicros (t : Timeval) : Int :=
  t.tv_sec * 1000000 + t.tv_usec

end Jssc

namespace Jssc

example : getNextTimeout false ⟨9, 9⟩ 1000 501000 800 = (0, ⟨0, 500000⟩) := by decide

example : getNextTimeout false ⟨9, 9⟩ 1000 900000000 300 = (0, ⟨0, 300000⟩) := by decide

example : getNextTimeout false ⟨9, 9⟩ 1000 2001000 0 = (0, ⟨2, 0⟩) := by decide

example : getNextTimeout false ⟨9, 9⟩ 1000 1000 0 = (0, ⟨0, 0⟩) := by decide

example : getNextTimeout false ⟨9, 9⟩ 1000 (-1) 500 = (0, ⟨0, 500000⟩) := by decide

example : getNextTimeout false ⟨9, 9⟩ 1000 (-1) 0 = (1, ⟨9, 9⟩) := by decide

example : getNextTimeout true ⟨9, 9⟩ 1000 55 66 = (1, ⟨9, 9⟩) := by decide

/-- Claim C8: for every poll period, when the deadline argument equals the
sentinel value 0, `getNextTimeout` fills the timeval with (0 s, 0 µs) and
returns 0; the result does not depend on the clock reading (the clock is
quantified and unused) and the poll period is ignored entirely. -/
theorem getNextTimeout_zero_deadline_nonblocking
    (tv : Timeval) (currentTime pollPeriodMillis : Int) :
    getNextTimeout false tv currentTime 0 pollPeriodMillis = (0, ⟨0, 0⟩) := by
  simp [getNextTimeout]

/-- Claim C9: for every deadline and poll period, if the output `timeval`
pointer is NULL, `getNextTimeout` returns 1 (block forever) and the pointee
state is unchanged: the function never writes through a null pointer. -/
theorem getNextTimeout_null_pointer
    (tv : Timeval) (currentTime timeoutDeadline pollPeriodMillis : Int) :
    getNextTimeout true tv currentTime timeoutDeadline pollPeriodMillis = (1, tv) := by
  simp [getNextTimeout]

/-- Claim C1, counterexample: with the deadline absent (negative sentinel,
here -1) and the poll period absent (0), `getNextTimeout` returns 1 — the
block-forever instruction, with the timeval untouched — rather than
signalling any error: the code has no `NoWakeupStrategy` error and silently
defaults to blocking forever. -/
theorem getNextTimeout_no_wakeup_counterexample :
    getNextTimeout false ⟨0, 0⟩ 1000 (-1) 0 = (1, ⟨0, 0⟩) := by decide

/-- Claim C1, amended: for every clock reading, if the deadline is absent
(encoded as a negative `timeoutDeadline`) and the poll period is absent
(non-positive), `getNextTimeout` returns 1, i.e. instructs the caller to
block forever, leaving the timeval unchanged; no error is signalled. -/
theorem getNextTimeout_no_wakeup_blocks_forever
    (tv : Timeval) (currentTime timeoutDeadline pollPeriodMillis : Int)
    (hd : timeoutDeadline < 0) (hp : pollPeriodMillis ≤ 0) :
    getNextTimeout false tv currentTime timeoutDeadline pollPeriodMillis = (1, tv) := by
  simp only [getNextTimeout, Bool.false_eq_true, if_false]
  rw [if_neg (by omega : ¬timeoutDeadline = 0),
    if_neg (by omega : ¬0 < timeoutDeadline), if_pos hd,
    if_neg (by omega : ¬0 < pollPeriodMillis)]

theorem getNextTimeout_no_wakeup_blocks_forever_witness :
    getNextTimeout false ⟨3, 4⟩ 77 (-5) (-2) = (1, ⟨3, 4⟩) :=
  getNextTimeout_no_wakeup_blocks_forever ⟨3, 4⟩ 77 (-5) (-2)
    (by decide) (by decide)

/-- Claim C3: for every present deadline (positive `timeoutDeadline`) that
is less than or equal to the clock reading — including exactly equal —
`getNextTimeout` fills the timeval with (0 s, 0 µs) and returns 0,
regardless of the poll period. -/
theorem getNextTimeout_deadline_passed
    (tv : Timeval) (currentTime timeoutDeadline pollPeriodMillis : Int)
    (hd : 0 < timeoutDeadline) (hc : timeoutDeadline ≤ currentTime) :
    getNextTimeout false tv currentTime timeoutDeadline pollPeriodMillis = (0, ⟨0, 0⟩) := by
  simp only [getNextTimeout, Bool.false_eq_true, if_false]
  rw [if_neg (by omega : ¬timeoutDeadline = 0), if_pos hd,
    if_pos (by omega : timeoutDeadline - currentTime ≤ 0)]

theorem getNextTimeout_deadline_passed_witness :
    getNextTimeout false ⟨8, 8⟩ 1000 1000 500 = (0, ⟨0, 0⟩) :=
  getNextTimeout_deadline_passed ⟨8, 8⟩ 1000 1000 500 (by decide) (by decide)

/-- Claim C4: for every clock reading and every positive poll period `p`,
if the deadline is absent (negative sentinel), the result is exactly a
0 return with the timeval holding `p` milliseconds, i.e. `p * 1000`
microseconds decomposed into seconds and a microsecond remainder. -/
theorem getNextTimeout_no_deadline_polls
    (tv : Timeval) (currentTime timeoutDeadline pollPeriodMillis : Int)
    (hd : timeoutDeadline < 0) (hp : 0 < pollPeriodMillis) :
    getNextTimeout false tv currentTime timeoutDeadline pollPeriodMillis =
      (0, ⟨(pollPeriodMillis * 1000).tdiv 1000000,
           (pollPeriodMillis * 1000).tmod 1000000⟩) := by
  simp only [getNextTimeout, Bool.false_eq_true, if_false]
  rw [if_neg (by omega : ¬timeoutDeadline = 0),
    if_neg (by omega : ¬0 < timeoutDeadline), if_pos hd, if_pos hp]
  have h1 : pollPeriodMillis.tdiv 1000 = (pollPeriodMillis * 1000).tdiv 1000000 := by
    rw [Int.tdiv_eq_ediv (by omega) (by omega),
      Int.tdiv_eq_ediv (by omega) (by omega)]
    omega
  have h2 : pollPeriodMillis.tmod 1000 * 1000 = (pollPeriodMillis * 1000).tmod 1000000 := by
    rw [Int.tmod_eq_emod (by omega) (by omega),
      Int.tmod_eq_emod (by omega) (by omega)]
    omega
  rw [h1, h2]

theorem getNextTimeout_no_deadline_polls_witness :
    getNextTimeout false ⟨8, 8⟩ 1000 (-1) 2500 = (0, ⟨2, 500000⟩) := by
  have h := getNextTimeout_no_deadline_polls ⟨8, 8⟩ 1000 (-1) 2500
    (by decide) (by decide)
  rw [h]; decide

/-- Claim C2: for every present deadline (positive `timeoutDeadline`)
strictly greater than the clock reading, with
`remaining = timeoutDeadline - currentTime`: if the poll period is absent
(non-positive) the filled timeval holds exactly `remaining` microseconds,
and if a positive poll period `p` is present it holds exactly
`min remaining (p * 1000)` microseconds, each decomposed into seconds and
a microsecond remainder. -/
theorem getNextTimeout_future_deadline
    (tv : Timeval) (currentTime timeoutDeadline pollPeriodMillis : Int)
    (hd : 0 < timeoutDeadline) (hc : currentTime < timeoutDeadline) :
    (pollPeriodMillis ≤ 0 →
      getNextTimeout false tv currentTime timeoutDeadline pollPeriodMillis =
        (0, ⟨(timeoutDeadline - currentTime).tdiv 1000000,
             (timeoutDeadline - currentTime).tmod 1000000⟩)) ∧
    (0 < pollPeriodMillis →
      getNextTimeout false tv currentTime timeoutDeadline pollPeriodMillis =
        (0, ⟨(min (timeoutDeadline - currentTime) (pollPeriodMillis * 1000)).tdiv 1000000,
             (min (timeoutDeadline - currentTime) (pollPeriodMillis * 1000)).tmod 1000000⟩)) := by
  constructor
  · intro hp
    simp only [getNextTimeout, Bool.false_eq_true, if_false]
    rw [if_neg (by omega : ¬timeoutDeadline = 0), if_pos hd,
      if_neg (by omega : ¬timeoutDeadline - currentTime ≤ 0),
      if_neg (by omega : ¬0 < pollPeriodMillis)]
  · intro hp
    simp only [getNextTimeout, Bool.false_eq_true, if_false]
    rw [if_neg (by omega : ¬timeoutDeadline = 0), if_pos hd,
      if_neg (by omega : ¬timeoutDeadline - currentTime ≤ 0), if_pos hp]
    by_cases hlt : pollPeriodMillis * 1000 < timeoutDeadline - currentTime
    · rw [if_pos hlt, min_eq_right (by omega :
        pollPeriodMillis * 1000 ≤ timeoutDeadline - currentTime)]
      have h1 : pollPeriodMillis.tdiv 1000 =
          (pollPeriodMillis * 1000).tdiv 1000000 := by
        rw [Int.tdiv_eq_ediv (by omega) (by omega),
          Int.tdiv_eq_ediv (by omega) (by omega)]
        omega
      have h2 : pollPeriodMillis.tmod 1000 * 1000 =
          (pollPeriodMillis * 1000).tmod 1000000 := by
        rw [Int.tmod_eq_emod (by omega) (by omega),
          Int.tmod_eq_emod (by omega) (by omega)]
        omega
      rw [h1, h2]
    · rw [if_neg hlt, min_eq_left (by omega :
        timeoutDeadline - currentTime ≤ pollPeriodMillis * 1000)]

theorem getNextTimeout_future_deadline_witness :
    getNextTimeout false ⟨8, 8⟩ 1000 2001000 0 = (0, ⟨2, 0⟩) ∧
      getNextTimeout false ⟨8, 8⟩ 1000 501000 800 = (0, ⟨0, 500000⟩) := by
  have h1 := (getNextTimeout_future_deadline ⟨8, 8⟩ 1000 2001000 0
    (by decide) (by decide)).1 (by decide)
  have h2 := (getNextTimeout_future_deadline ⟨8, 8⟩ 1000 501000 800
    (by decide) (by decide)).2 (by decide)
  rw [h1, h2]
  exact ⟨by decide, by decide⟩

/-- Claim C5: whenever `getNextTimeout` fills the timeval (returns 0), the
filled duration is at most the time remaining until the deadline clamped at
zero (when a deadline is set, i.e. `timeoutDeadline` positive) and at most
the poll period (when a positive poll period is set). -/
theorem getNextTimeout_waitfor_bounds
    (timeIsNull : Bool) (tv : Timeval)
    (currentTime timeoutDeadline pollPeriodMillis : Int) (r : Timeval)
    (h : getNextTimeout timeIsNull tv currentTime timeoutDeadline pollPeriodMillis = (0, r)) :
    (0 < timeoutDeadline →
      totalMicros r ≤ max (timeoutDeadline - currentTime) 0) ∧
    (0 < pollPeriodMillis → totalMicros r ≤ pollPeriodMillis * 1000) := by
  have kp := Int.tdiv_add_tmod pollPeriodMillis 1000
  have kT := Int.tdiv_add_tmod (timeoutDeadline - currentTime) 1000000
  simp only [getNextTimeout] at h
  split_ifs at h with h1 h2 h3 h4 h5 h6 h7 h8 <;>
    simp only [Prod.mk.injEq] at h <;>
    obtain ⟨hq, hr⟩ := h <;>
    first
      | exact absurd hq (by decide)
      | (subst hr
         refine ⟨fun hpos => ?_, fun hpos => ?_⟩ <;> simp [totalMicros] <;> omega)

theorem getNextTimeout_waitfor_bounds_witness :
    totalMicros ⟨1, 0⟩ ≤ max (1000000 - 0) 0 ∧ totalMicros ⟨1, 0⟩ ≤ 2000 * 1000 := by
  have h := getNextTimeout_waitfor_bounds false ⟨0, 0⟩ 0 1000000 2000 ⟨1, 0⟩
    (by decide)
  exact ⟨h.1 (by decide), h.2 (by decide)⟩

/-- Field bounds for the timeval the source builds from a positive poll
period: `tv_sec = p / 1000`, `tv_usec = (p % 1000) * 1000`. -/
lemma pollPair_fields {p : Int} (hp : 0 < p) :
    0 ≤ p.tdiv 1000 ∧ 0 ≤ p.tmod 1000 * 1000 ∧ p.tmod 1000 * 1000 < 1000000 := by
  have k1 := Int.tmod_nonneg 1000 (le_of_lt hp)
  have k2 := Int.tmod_lt_of_pos p (by decide : (0 : Int) < 1000)
  exact ⟨Int.tdiv_nonneg (le_of_lt hp) (by decide), by omega, by omega⟩

/-- Field bounds for the timeval the source builds from a positive
microsecond count: `tv_sec = t / 1000000`, `tv_usec = t % 1000000`. -/
lemma microsPair_fields {t : Int} (ht : 0 < t) :
    0 ≤ t.tdiv 1000000 ∧ 0 ≤ t.tmod 1000000 ∧ t.tmod 1000000 < 1000000 := by
  have k1 := Int.tmod_nonneg 1000000 (le_of_lt ht)
  have k2 := Int.tmod_lt_of_pos t (by decide : (0 : Int) < 1000000)
  exact ⟨Int.tdiv_nonneg (le_of_lt ht) (by decide), by omega, by omega⟩

/-- Claim C6: every timeval `getNextTimeout` fills (return value 0) has a
non-negative seconds field and a microseconds field in `[0, 1000000)`;
a non-positive remaining time is clamped to the zero timeval, so negative
values never appear in the duration fields. -/
theorem getNextTimeout_duration_wellformed
    (timeIsNull : Bool) (tv : Timeval)
    (currentTime timeoutDeadline pollPeriodMillis : Int) (r : Timeval)
    (h : getNextTimeout timeIsNull tv currentTime timeoutDeadline pollPeriodMillis = (0, r)) :
    0 ≤ r.tv_sec ∧ 0 ≤ r.tv_usec ∧ r.tv_usec < 1000000 := by
  simp only [getNextTimeout] at h
  split_ifs at h with h1 h2 h3 h4 h5 h6 h7 h8 <;>
    simp only [Prod.mk.injEq] at h <;>
    obtain ⟨hq, hr⟩ := h <;>
    first
      | exact absurd hq (by decide)
      | (subst hr; exact ⟨by decide, by decide, by decide⟩)
      | (subst hr; exact pollPair_fields (by omega))
      | (subst hr; exact microsPair_fields (by omega))

theorem getNextTimeout_duration_wellformed_witness :
    0 ≤ (Timeval.mk 0 500000).tv_sec ∧ 0 ≤ (Timeval.mk 0 500000).tv_usec ∧
      (Timeval.mk 0 500000).tv_usec < 1000000 :=
  getNextTimeout_duration_wellformed false ⟨9, 9⟩ 1000 501000 800 ⟨0, 500000⟩
    (by decide)

/-- Claim C7, counterexample: the C function's own arguments do not include
the clock reading — it samples the clock internally via
`getTimePreciseMicros(env)` — so two invocations with identical deadline
(100) and poll period (0) arguments that observe different internal clock
samples (50 versus 200) produce different results. -/
theorem getNextTimeout_not_clock_free :
    getNextTimeout false ⟨0, 0⟩ 50 100 0 ≠ getNextTimeout false ⟨0, 0⟩ 200 100 0 := by
  decide

/-- Claim C7, amended: `getNextTimeout` samples the clock itself rather
than receiving it as a parameter; once that internal sample is modelled as
the explicit `currentTime` argument, the function is pure and
deterministic: equal argument tuples give equal results, and in the
positive-deadline regime the result depends on the clock only through
`timeoutDeadline - currentTime`, so shifting deadline and clock together
changes nothing. -/
theorem getNextTimeout_deterministic :
    (∀ (timeIsNull : Bool) (tv tv' : Timeval) (c c' d d' p p' : Int),
        tv = tv' → c = c' → d = d' → p = p' →
        getNextTimeout timeIsNull tv c d p = getNextTimeout timeIsNull tv' c' d' p') ∧
    (∀ (tv : Timeval) (c d p δ : Int), 0 < d → 0 < d + δ →
        getNextTimeout false tv (c + δ) (d + δ) p = getNextTimeout false tv c d p) := by
  constructor
  · intro n tv tv' c c' d d' p p' htv hc hd hp
    subst htv; subst hc; subst hd; subst hp; rfl
  · intro tv c d p δ h1 h2
    simp only [getNextTimeout, Bool.false_eq_true, if_false]
    rw [if_neg (by omega : ¬d + δ = 0), if_neg (by omega : ¬d = 0),
      if_pos h2, if_pos h1]
    have e : d + δ - (c + δ) = d - c := by ring
    rw [e]

theorem getNextTimeout_deterministic_witness :
    getNextTimeout false ⟨0, 0⟩ 5 7 9 = getNextTimeout false ⟨0, 0⟩ 5 7 9 ∧
      getNextTimeout false ⟨0, 0⟩ (10 + 50) (50 + 50) 0 =
        getNextTimeout false ⟨0, 0⟩ 10 50 0 :=
  ⟨getNextTimeout_deterministic.1 false ⟨0, 0⟩ ⟨0, 0⟩ 5 5 7 7 9 9 rfl rfl rfl rfl,
   getNextTimeout_deterministic.2 ⟨0, 0⟩ 10 50 0 50 (by decide) (by decide)⟩

/-- Claim C10: `getNextTimeout` returns 1 (block forever) exactly when the
timeval pointer is NULL or the deadline is negative with a non-positive
poll period; its return value is always 0 or 1; and the instrumented
transcription — whose trailing fallback `return 1` is marked `none` —
always yields `some` of the real result, so that trailing return is
unreachable. -/
theorem getNextTimeout_return_characterization
    (timeIsNull : Bool) (tv : Timeval)
    (currentTime timeoutDeadline pollPeriodMillis : Int) :
    getNextTimeoutInstr timeIsNull tv currentTime timeoutDeadline pollPeriodMillis =
      some (getNextTimeout timeIsNull tv currentTime timeoutDeadline pollPeriodMillis) ∧
    ((getNextTimeout timeIsNull tv currentTime timeoutDeadline pollPeriodMillis).1 = 1 ↔
      (timeIsNull = true ∨ (timeoutDeadline < 0 ∧ pollPeriodMillis ≤ 0))) ∧
    ((getNextTimeout timeIsNull tv currentTime timeoutDeadline pollPeriodMillis).1 = 0 ∨
      (getNextTimeout timeIsNull tv currentTime timeoutDeadline pollPeriodMillis).1 = 1) := by
  refine ⟨?_, ?_, ?_⟩
  · simp only [getNextTimeoutInstr, getNextTimeout]
    split_ifs <;> first | rfl | (exfalso; omega)
  · simp only [getNextTimeout]
    split_ifs with h1 h2 h3 h4 h5 h6 h7 h8 <;> simp_all <;> omega
  · simp only [getNextTimeout]
    split_ifs <;> simp

end Jssc
